import Mathlib

/-!
Verification of the GPIO compatibility adapter
(`main_ugv/gpio_sensor/motor/RPi/GPIO.py`), a shim that remaps legacy
RPi.GPIO calls onto the lgpio line-control library.

The Python module is embedded shallowly: module-level constants become
`Int` constants, the global `mode_board` flag and the `callbacks` registry
are passed explicitly, and every call into the lgpio library is recorded
in a returned trace (or supplied as an oracle function where the adapter
inspects its result).  Python exceptions become explicit error values.
-/

set_option autoImplicit false

/-! ## RPi.GPIO constants (module level, lines 24-37 of the source) -/

def BOARD : Int := 10
def BCM : Int := 11
def HIGH : Int := 1
def LOW : Int := 0
def OUT : Int := 0
def IN : Int := 1
def PUD_OFF : Int := 20
def PUD_DOWN : Int := 21
def PUD_UP : Int := 22
def RISING : Int := 31
def FALLING : Int := 32
def BOTH : Int := 33

/-! Lgpio bias flags (lines 49-51 of the source). -/

def LGPIO_PULL_UP : Int := 32
def LGPIO_PULL_DOWN : Int := 64
def LGPIO_PULL_OFF : Int := 128

/-- The fixed BOARD-pin to BCM-line translation table (`pins`, lines 41-45),
as the association list of its (key, value) entries. -/
def pins : List (Int × Int) :=
  [(3, 2), (5, 3), (7, 4), (8, 14), (10, 15), (11, 17), (12, 18), (13, 27),
   (15, 22), (16, 23), (18, 24), (19, 10), (21, 9), (22, 25), (23, 11),
   (24, 8), (26, 7), (27, 0), (28, 1), (29, 5), (31, 6), (32, 12), (33, 13),
   (35, 19), (36, 16), (37, 26), (38, 20), (40, 21)]

/-- Dictionary lookup `pins[line]`, returning `none` where Python raises
`KeyError`. -/
def lookupPins (line : Int) : Option Int :=
  (pins.find? (fun p => p.1 == line)).map Prod.snd

/-- `setmode` (lines 60-65): the resulting value of the global `mode_board`
flag. -/
def setmode (mode : Int) : Bool :=
  mode == BOARD

/-- `_get_gpio` (lines 68-76): `pin = line`; if `mode_board`, try
`pin = pins[line]`, swallowing the `KeyError` of a missing key; return
`pin`. -/
def _get_gpio (mode_board : Bool) (line : Int) : Int :=
  if mode_board then (lookupPins line).getD line else line

/-! ## Lemmas about the translation table -/

/-- In an association list whose keys are pairwise distinct, `find?` by a
key of an entry yields that entry's value. -/
theorem assoc_find?_eq (a b : Int) (l : List (Int × Int)) :
    l.Pairwise (fun p q => p.1 ≠ q.1) → (a, b) ∈ l →
    (l.find? (fun p => p.1 == a)).map Prod.snd = some b := by
  induction l with
  | nil => intro _ hmem; simp at hmem
  | cons p rest ih =>
    intro hpw hmem
    rw [List.pairwise_cons] at hpw
    rcases List.mem_cons.mp hmem with heq | hmem2
    · rw [← heq, List.find?_cons_of_pos _ (by simp)]
      rfl
    · by_cases hk : p.1 = a
      · exact absurd hk (hpw.1 (a, b) hmem2)
      · rw [List.find?_cons_of_neg _ (by simpa using hk)]
        exact ih hpw.2 hmem2

/-- The keys of the translation table are pairwise distinct. -/
theorem pins_keys_distinct : pins.Pairwise (fun p q => p.1 ≠ q.1) := by
  decide

/-- A (key, value) entry of the table is found by the dictionary lookup. -/
theorem mem_pins_lookupPins (line m : Int) (h : (line, m) ∈ pins) :
    lookupPins line = some m :=
  assoc_find?_eq line m pins pins_keys_distinct h

/-- A line that is no key of the table is missed by the dictionary lookup. -/
theorem lookupPins_none (line : Int) (h : ∀ m : Int, (line, m) ∉ pins) :
    lookupPins line = none := by
  cases hf : pins.find? (fun p => p.1 == line) with
  | none => simp [lookupPins, hf]
  | some q =>
    cases q with
    | mk a b =>
      have hq : (a, b) ∈ pins := List.mem_of_find?_eq_some hf
      have hp := List.find?_some hf
      have ha : a = line := by simpa using hp
      subst ha
      exact absurd hq (h b)

/-- C1: under board-numbering mode `_get_gpio` maps every key of the
translation table to its entry and leaves every non-key unchanged; under
line-numbering (BCM) mode it is the identity on every integer. -/
theorem c1_translate (line : Int) :
    (∀ m : Int, (line, m) ∈ pins → _get_gpio true line = m) ∧
    ((∀ m : Int, (line, m) ∉ pins) → _get_gpio true line = line) ∧
    _get_gpio false line = line := by
  refine ⟨fun m hm => ?_, fun h => ?_, rfl⟩
  · simp [_get_gpio, mem_pins_lookupPins line m hm]
  · simp [_get_gpio, lookupPins_none line h]

/-- Witness for C1: pin 7 is a key (mapped to 4), pin 9 is no key
(passed through), and BCM mode is the identity at 7. -/
theorem c1_translate_witness :
    _get_gpio true 7 = 4 ∧ _get_gpio true 9 = 9 ∧ _get_gpio false 7 = 7 :=
  ⟨(c1_translate 7).1 4 (by decide),
   (c1_translate 9).2.1 (fun m hm => by simp [pins] at hm),
   (c1_translate 7).2.2⟩

/-! ## Line configuration: `setup` (lines 84-104) -/

/-- A Python value that may occur as an element of the `gpios` argument. -/
inductive PyVal where
  | int (n : Int)
  | str (s : String)
deriving DecidableEq

/-- The shapes the `gpios` argument of `setup` can take: a single int, a
tuple, a list, a bare string, or Python `None`. -/
inductive GpiosArg where
  | int (n : Int)
  | tuple (elems : List PyVal)
  | list (elems : List PyVal)
  | str (s : String)
  | pynone
deriving DecidableEq

/-- Calls `setup` issues into the lgpio library
(`gpio_claim_input` / `gpio_claim_output`). -/
inductive LgpioCall where
  | claim_input (gpio : PyVal) (bias : Int)
  | claim_output (gpio : PyVal)
deriving DecidableEq

/-- Exceptions `setup` can raise to its caller: the explicit `TypeError`
of line 89 and the `UnboundLocalError` of line 101 when `pullupdown` was
never assigned. -/
inductive SetupError where
  | typeError
  | unboundLocal
deriving DecidableEq

/-- `_get_gpio` applied to a loop element: `pins[key]` with a non-int key
raises `KeyError`, which `_get_gpio` swallows, so non-ints pass through. -/
def _get_gpio_val (mode_board : Bool) (v : PyVal) : PyVal :=
  match v with
  | PyVal.int n => PyVal.int (_get_gpio mode_board n)
  | other => other

/-- The value the local `pullupdown` holds after the if/elif chain of
lines 95-100, `none` when no branch assigned it. -/
def biasOf (pull_up_down : Int) : Option Int :=
  if pull_up_down == PUD_UP then some LGPIO_PULL_UP
  else if pull_up_down == PUD_DOWN then some LGPIO_PULL_DOWN
  else if pull_up_down == PUD_OFF then some LGPIO_PULL_OFF
  else none

/-- One iteration of the `for gpio in gpios` loop (lines 91-104): the
lgpio calls it issues and the error it raises, if any. -/
def setupPin (mode_board : Bool) (mode pull_up_down : Int) (v : PyVal) :
    List LgpioCall × Option SetupError :=
  if mode == IN then
    match biasOf pull_up_down with
    | some b => ([LgpioCall.claim_input (_get_gpio_val mode_board v) b], none)
    | none => ([], some SetupError.unboundLocal)
  else if mode == OUT then ([LgpioCall.claim_output (_get_gpio_val mode_board v)], none)
  else ([], none)

/-- The loop of lines 91-104 over the elements of the tuple: calls issued
so far are kept, the first exception aborts the loop and propagates. -/
def setupList (mode_board : Bool) (mode pull_up_down : Int) :
    List PyVal → List LgpioCall × Option SetupError
  | [] => ([], none)
  | v :: rest =>
    match setupPin mode_board mode pull_up_down v with
    | (calls, none) =>
      let r := setupList mode_board mode pull_up_down rest
      (calls ++ r.1, r.2)
    | (calls, some e) => (calls, some e)

/-- `setup` (lines 84-104): a single int is wrapped into a one-element
tuple; any other non-tuple raises `TypeError`; then the loop runs.
Result: the lgpio calls issued, and the exception that propagated, if
any. -/
def setup (mode_board : Bool) (gpios : GpiosArg) (mode pull_up_down : Int) :
    List LgpioCall × Option SetupError :=
  match gpios with
  | GpiosArg.int n => setupList mode_board mode pull_up_down [PyVal.int n]
  | GpiosArg.tuple l => setupList mode_board mode pull_up_down l
  | _ => ([], some SetupError.typeError)

/-- Modelled from the spec: an argument that is a homogeneous collection
of integer-like values, "of any collection kind" (tuple or list here). -/
def specIntHomogeneousCollection : GpiosArg → Bool
  | GpiosArg.tuple l => l.all (fun v => match v with | PyVal.int _ => true | _ => false)
  | GpiosArg.list l => l.all (fun v => match v with | PyVal.int _ => true | _ => false)
  | _ => false

/-- The check the code actually performs (lines 85-89): the argument is a
single int or a tuple. -/
def isIntOrTuple : GpiosArg → Bool
  | GpiosArg.int _ => true
  | GpiosArg.tuple _ => true
  | _ => false

/-- The per-pin step never raises the `TypeError`. -/
theorem setupPin_snd_ne_typeError (mb : Bool) (mode pull : Int) (v : PyVal) :
    (setupPin mb mode pull v).2 ≠ some SetupError.typeError := by
  unfold setupPin
  split
  · cases biasOf pull <;> simp
  · split <;> simp

/-- The loop never raises the `TypeError`. -/
theorem setupList_snd_ne_typeError (mb : Bool) (mode pull : Int) (l : List PyVal) :
    (setupList mb mode pull l).2 ≠ some SetupError.typeError := by
  induction l with
  | nil => simp [setupList]
  | cons v rest ih =>
    unfold setupList
    cases hp : setupPin mb mode pull v with
    | mk calls err =>
      cases err with
      | none => simpa using ih
      | some e =>
        have hne := setupPin_snd_ne_typeError mb mode pull v
        rw [hp] at hne
        simpa using hne

/-- Counterexample to C3: a list of two integers is a homogeneous
collection of integer-like values, yet `setup` raises the `TypeError`
(the code only accepts tuples). -/
theorem c3_counterexample :
    specIntHomogeneousCollection (GpiosArg.list [PyVal.int 1, PyVal.int 2]) = true ∧
    (setup false (GpiosArg.list [PyVal.int 1, PyVal.int 2]) OUT PUD_OFF).2 =
      some SetupError.typeError := by
  exact ⟨rfl, rfl⟩

/-- C3 amended: `setup` raises its `TypeError` if and only if the
argument is neither a single int nor a tuple; homogeneity of the
elements is not checked, and homogeneous non-tuple collections (lists)
do raise. -/
theorem c3_amended (mb : Bool) (g : GpiosArg) (mode pull : Int) :
    (setup mb g mode pull).2 = some SetupError.typeError ↔ isIntOrTuple g = false := by
  cases g with
  | int n =>
    simp only [setup, isIntOrTuple]
    exact ⟨fun h => absurd h (setupList_snd_ne_typeError mb mode pull [PyVal.int n]),
           fun h => by simp at h⟩
  | tuple l =>
    simp only [setup, isIntOrTuple]
    exact ⟨fun h => absurd h (setupList_snd_ne_typeError mb mode pull l),
           fun h => by simp at h⟩
  | list l => simp [setup, isIntOrTuple]
  | str s => simp [setup, isIntOrTuple]
  | pynone => simp [setup, isIntOrTuple]

/-- Witness for C3 amended: a one-element list raises the `TypeError`,
and a single int does not. -/
theorem c3_amended_witness :
    (setup false (GpiosArg.list [PyVal.int 1]) OUT PUD_OFF).2 = some SetupError.typeError ∧
    ¬ (setup false (GpiosArg.int 1) OUT PUD_OFF).2 = some SetupError.typeError :=
  ⟨(c3_amended false (GpiosArg.list [PyVal.int 1]) OUT PUD_OFF).mpr rfl,
   fun h => absurd ((c3_amended false (GpiosArg.int 1) OUT PUD_OFF).mp h) (by decide)⟩

/-- Counterexample to C8: `setup` with the single pin 5 claims the line,
but `setup` with the one-element list collection `[5]` raises the
`TypeError`, so the two calls do not behave identically for every
collection kind. -/
theorem c8_counterexample :
    setup false (GpiosArg.int 5) OUT PUD_OFF =
      ([LgpioCall.claim_output (PyVal.int 5)], none) ∧
    setup false (GpiosArg.list [PyVal.int 5]) OUT PUD_OFF =
      ([], some SetupError.typeError) :=
  ⟨rfl, rfl⟩

/-- C8 amended: for every mode flag, pin, direction and pull policy,
`setup` with a single int behaves identically (same lgpio calls, same
error) to `setup` with a one-element tuple holding that int. -/
theorem c8_amended (mb : Bool) (n : Int) (mode pull : Int) :
    setup mb (GpiosArg.int n) mode pull = setup mb (GpiosArg.tuple [PyVal.int n]) mode pull :=
  rfl

/-- C9: with direction `IN` and a pull policy outside the three PUD
constants, the `pullupdown` local is never assigned (`biasOf` is `none`)
and `setup` raises the `UnboundLocalError` before issuing any lgpio
claim call, both for a single pin and for a nonempty tuple; in
particular the propagated error is not the `TypeError`. -/
theorem c9_setup_bad_pull (mb : Bool) (n : Int) (v : PyVal) (rest : List PyVal) (pull : Int)
    (h1 : pull ≠ PUD_UP) (h2 : pull ≠ PUD_DOWN) (h3 : pull ≠ PUD_OFF) :
    biasOf pull = none ∧
    setup mb (GpiosArg.int n) IN pull = ([], some SetupError.unboundLocal) ∧
    setup mb (GpiosArg.tuple (v :: rest)) IN pull = ([], some SetupError.unboundLocal) := by
  have hb : biasOf pull = none := by
    simp [biasOf, h1, h2, h3]
  refine ⟨hb, ?_, ?_⟩
  · simp [setup, setupList, setupPin, hb]
  · simp [setup, setupList, setupPin, hb]

/-- Witness for C9: pull policy 99 with direction `IN` leaves the bias
unassigned and raises the `UnboundLocalError` with no line claimed. -/
theorem c9_witness :
    biasOf 99 = none ∧
    setup false (GpiosArg.int 7) IN 99 = ([], some SetupError.unboundLocal) ∧
    setup false (GpiosArg.tuple [PyVal.int 7]) IN 99 = ([], some SetupError.unboundLocal) :=
  c9_setup_bad_pull false 7 (PyVal.int 7) [] 99 (by decide) (by decide) (by decide)

/-! ## Edge detection: `callbacks`, `_gpio_event` (lines 111-117) and
`add_event_detect` (lines 120-137) -/

/-- A caller-supplied edge handler: invoked with the pin number, it
either returns or raises an exception (carried as a message). -/
def Handler : Type := Int → Except String Unit

/-- The `callbacks` dictionary, as an insertion-ordered association list
from line number to handler. -/
def Callbacks : Type := List (Int × Handler)

/-- Dictionary lookup `callbacks[gpio]`, `none` where Python raises
`KeyError`. -/
def lookupCb (cbs : Callbacks) (gpio : Int) : Option Handler :=
  (cbs.find? (fun p => p.1 == gpio)).map Prod.snd

/-- Dictionary assignment `callbacks[gpio] = callback`: replace in place
when the key exists, append otherwise. -/
def insertCb : Callbacks → Int → Handler → Callbacks
  | [], gpio, cb => [(gpio, cb)]
  | p :: rest, gpio, cb =>
    if p.1 == gpio then (gpio, cb) :: rest else p :: insertCb rest gpio cb

/-- The message printed for the `KeyError` of a missing registry key
(`str(e)` is the repr of the key). -/
def keyErrorMessage (gpio : Int) : String := toString gpio

/-- The lgpio edge constants `add_event_detect` selects among. -/
inductive LgpioEdge where
  | rising_edge
  | falling_edge
  | both_edges
deriving DecidableEq

/-- The `detect` value computed on lines 123-130: unrecognized edge kinds
fall back to both edges. -/
def detectOf (edge : Int) : LgpioEdge :=
  if edge == RISING then LgpioEdge.rising_edge
  else if edge == FALLING then LgpioEdge.falling_edge
  else LgpioEdge.both_edges

/-- `add_event_detect` (lines 120-137): translate the pin, store the
handler under the translated key, compute the lgpio edge constant used
for the alert claim.  The lgpio calls themselves are guarded by a
catch-and-log block and have no effect on this layer's state. -/
def add_event_detect (mode_board : Bool) (cbs : Callbacks) (gpio edge : Int)
    (callback : Handler) (bouncetime : Int) : Callbacks × LgpioEdge :=
  (insertCb cbs (_get_gpio mode_board gpio) callback, detectOf edge)

/-- `_gpio_event` (lines 111-117): apply `_get_gpio` to the raw line
number; if the level is below 2, look up and invoke the handler inside a
try/except that prints any exception.  Result: the arguments the handler
was invoked with, and the messages printed. -/
def _gpio_event (mode_board : Bool) (cbs : Callbacks) (gpio level flags : Int) :
    List Int × List String :=
  if level < 2 then
    match lookupCb cbs (_get_gpio mode_board gpio) with
    | none => ([], [keyErrorMessage (_get_gpio mode_board gpio)])
    | some cb =>
      match cb (_get_gpio mode_board gpio) with
      | Except.ok _ => ([_get_gpio mode_board gpio], [])
      | Except.error e => ([_get_gpio mode_board gpio], [e])
  else ([], [])

/-- A handler that returns normally, used in concrete scenarios. -/
def okHandler : Handler := fun _ => Except.ok ()

/-- A handler that raises, used in concrete scenarios. -/
def boomHandler : Handler := fun _ => Except.error "boom"

/-- Looking up the key just stored finds the stored handler. -/
theorem lookupCb_insertCb_self (cbs : Callbacks) (gpio : Int) (cb : Handler) :
    lookupCb (insertCb cbs gpio cb) gpio = some cb := by
  induction cbs with
  | nil => simp [insertCb, lookupCb]
  | cons p rest ih =>
    by_cases hp : p.1 = gpio
    · simp [insertCb, lookupCb, hp]
    · simp only [insertCb, lookupCb, List.find?]
      have hb : (p.1 == gpio) = false := by simpa using hp
      simp only [hb, if_false, List.find?]
      simpa [lookupCb, hb] using ih

/-- Counterexample to C2: in board-numbering mode, registering board pin 7
stores the handler under chip line 4, and a dispatch of raw line 4
invokes the handler with argument 4 — not with the externally-visible
pin identity 7 the registration used. -/
theorem c2_counterexample :
    (add_event_detect true [] 7 RISING okHandler 0).1 = [(4, okHandler)] ∧
    (_gpio_event true [(4, okHandler)] 4 1 0).1 = [4] ∧ (4 : Int) ≠ 7 :=
  ⟨rfl, rfl, by decide⟩

/-- C2 amended: under line-numbering mode the dispatcher does invoke
the registered handler with the pin identity used at registration: after
`add_event_detect` on pin with a handler, a dispatch of that raw line
with level 0 or 1 finds the handler and invokes it with the pin itself.
(Under board-numbering mode the dispatcher applies the forward
translation again, so the handler receives the raw chip line instead.) -/
theorem c2_amended (cbs0 : Callbacks) (pin edge bt level flags : Int) (cb : Handler)
    (hlev : level = 0 ∨ level = 1) :
    lookupCb (add_event_detect false cbs0 pin edge cb bt).1 pin = some cb ∧
    (_gpio_event false (add_event_detect false cbs0 pin edge cb bt).1 pin level flags).1 =
      [pin] := by
  have hl : lookupCb (insertCb cbs0 pin cb) pin = some cb :=
    lookupCb_insertCb_self cbs0 pin cb
  have hlt : level < 2 := by rcases hlev with rfl | rfl <;> decide
  refine ⟨hl, ?_⟩
  show (_gpio_event false (insertCb cbs0 pin cb) pin level flags).1 = [pin]
  unfold _gpio_event
  rw [if_pos hlt, show _get_gpio false pin = pin from rfl, hl]
  cases hc : cb pin <;> simp [hc]

/-- Witness for C2 amended: BCM mode, pin 7, a rising registration, a
level-1 dispatch: the handler is found under key 7 and invoked with 7. -/
theorem c2_amended_witness :
    lookupCb (add_event_detect false [] 7 RISING okHandler 0).1 7 = some okHandler ∧
    (_gpio_event false (add_event_detect false [] 7 RISING okHandler 0).1 7 1 0).1 = [7] :=
  c2_amended [] 7 RISING 0 1 0 okHandler (Or.inr rfl)

/-- Counterexample to C4: in board-numbering mode, line 3 carries a
registered handler, yet a level-1 dispatch of line 3 invokes no handler:
the dispatcher re-translates 3 to 2 and the lookup of key 2 fails (the
`KeyError` is printed). -/
theorem c4_counterexample :
    lookupCb [(3, okHandler)] 3 = some okHandler ∧
    _gpio_event true [(3, okHandler)] 3 1 0 = ([], [keyErrorMessage 2]) :=
  ⟨rfl, rfl⟩

/-- C4 amended: whenever the registry holds a handler under the
dispatched line's translated number (always the line itself in
line-numbering mode), a level-2 dispatch invokes no handler, a level-0
or level-1 dispatch invokes that handler exactly once, and the registry
produced by `add_event_detect` does not depend on the requested edge
kind. -/
theorem c4_amended (mb : Bool) (cbs : Callbacks) (gpio flags : Int) (cb : Handler)
    (hreg : lookupCb cbs (_get_gpio mb gpio) = some cb) :
    (_gpio_event mb cbs gpio 2 flags).1 = [] ∧
    (∀ level : Int, level = 0 ∨ level = 1 →
      (_gpio_event mb cbs gpio level flags).1 = [_get_gpio mb gpio]) ∧
    (∀ (cbs0 : Callbacks) (pin e1 e2 bt : Int) (cb2 : Handler),
      (add_event_detect mb cbs0 pin e1 cb2 bt).1 = (add_event_detect mb cbs0 pin e2 cb2 bt).1) := by
  refine ⟨?_, fun level hlev => ?_, fun cbs0 pin e1 e2 bt cb2 => rfl⟩
  · unfold _gpio_event
    rw [if_neg (by decide : ¬ ((2 : Int) < 2))]
  · have hlt : level < 2 := by rcases hlev with rfl | rfl <;> decide
    unfold _gpio_event
    rw [if_pos hlt, hreg]
    cases hc : cb (_get_gpio mb gpio) <;> simp [hc]

/-- Witness for C4 amended: line 4 in BCM mode with a registered handler;
level 2 invokes nothing, level 1 invokes it once; edge independence at a
concrete registration. -/
theorem c4_amended_witness :
    (_gpio_event false [(4, okHandler)] 4 2 0).1 = [] ∧
    (_gpio_event false [(4, okHandler)] 4 1 0).1 = [4] ∧
    (add_event_detect false [] 7 RISING okHandler 0).1 =
      (add_event_detect false [] 7 FALLING okHandler 0).1 := by
  obtain ⟨h2, h01, hedge⟩ := c4_amended false [(4, okHandler)] 4 0 okHandler rfl
  exact ⟨h2, h01 1 (Or.inr rfl), hedge [] 7 RISING FALLING 0 okHandler⟩

/-- C7: when the registered handler raises, the dispatcher catches the
exception and prints its message: the dispatch returns the normal pair
(handler invoked once, message logged) and no exception escapes
`_gpio_event`, which is a total function into its result type. -/
theorem c7_handler_exception (mb : Bool) (cbs : Callbacks) (gpio level flags : Int)
    (cb : Handler) (e : String)
    (hreg : lookupCb cbs (_get_gpio mb gpio) = some cb)
    (hraise : cb (_get_gpio mb gpio) = Except.error e)
    (hlev : level < 2) :
    _gpio_event mb cbs gpio level flags = ([_get_gpio mb gpio], [e]) := by
  unfold _gpio_event
  rw [if_pos hlev, hreg]
  simp [hraise]

/-- Witness for C7: a handler that raises "boom" on line 4; the dispatch
returns normally with the message logged. -/
theorem c7_witness :
    _gpio_event false [(4, boomHandler)] 4 1 0 = ([4], ["boom"]) :=
  c7_handler_exception false [(4, boomHandler)] 4 1 0 boomHandler "boom" rfl rfl (by decide)

/-- C10: a level-0 or level-1 dispatch on a line whose translated number
has no registry entry does not raise: the `KeyError` is caught by the
same catch-and-log block and the dispatcher returns normally, invoking
no handler and printing the key. -/
theorem c10_no_handler (mb : Bool) (cbs : Callbacks) (gpio level flags : Int)
    (hnone : lookupCb cbs (_get_gpio mb gpio) = none)
    (hlev : level < 2) :
    _gpio_event mb cbs gpio level flags = ([], [keyErrorMessage (_get_gpio mb gpio)]) := by
  unfold _gpio_event
  rw [if_pos hlev, hnone]

/-- Witness for C10: empty registry, line 5, level 0: no handler runs and
the key is printed. -/
theorem c10_witness :
    _gpio_event false [] 5 0 0 = ([], [keyErrorMessage 5]) :=
  c10_no_handler false [] 5 0 0 rfl (by decide)

/-! ## Level read: `input` (lines 140-147) -/

/-- `input` (lines 140-147): translate the pin, initialize `level` to the
`None` sentinel, try `lgpio.gpio_read` (supplied as an oracle mapping a
line to its result), print the message of any exception, return `level`.
Result: the returned level (`none` is Python `None`) and the messages
printed. -/
def input (mode_board : Bool) (gpio_read : Int → Except String Int) (gpio : Int) :
    Option Int × List String :=
  match gpio_read (_get_gpio mode_board gpio) with
  | Except.ok v => (some v, [])
  | Except.error e => (none, [e])

/-- C5: when the underlying read fails, `input` returns the `None`
sentinel (distinct from both valid levels 0 and 1) instead of raising
and prints the failure description; when the read succeeds, `input`
returns the level the library reported. -/
theorem c5_input (mb : Bool) (gpio_read : Int → Except String Int) (gpio : Int) :
    (∀ e, gpio_read (_get_gpio mb gpio) = Except.error e →
      input mb gpio_read gpio = (none, [e]) ∧
      (none : Option Int) ≠ some 0 ∧ (none : Option Int) ≠ some 1) ∧
    (∀ v, gpio_read (_get_gpio mb gpio) = Except.ok v →
      input mb gpio_read gpio = (some v, [])) := by
  constructor
  · intro e he
    refine ⟨?_, by simp, by simp⟩
    unfold input
    rw [he]
  · intro v hv
    unfold input
    rw [hv]

/-- A read oracle that always fails, used in concrete scenarios. -/
def failingRead : Int → Except String Int := fun _ => Except.error "read failed"

/-- A read oracle that always reports level 1, used in concrete
scenarios. -/
def okRead : Int → Except String Int := fun _ => Except.ok 1

/-- Witness for C5: a failing read on pin 4 yields the sentinel and the
log entry; a successful read yields the reported level. -/
theorem c5_witness :
    input false failingRead 4 = (none, ["read failed"]) ∧
    input false okRead 4 = (some 1, []) :=
  ⟨((c5_input false failingRead 4).1 "read failed" rfl).1,
   (c5_input false okRead 4).2 1 rfl⟩

/-! ## Software PWM: `PWM` and `PWMInstance` (lines 157-181) -/

/-- A `tx_pwm` request issued to the lgpio library:
(line, frequency, duty cycle). -/
def TxPwmCall : Type := Int × Int × Int

/-- The `PWMInstance` object state (lines 163-167). -/
structure PWMInstance where
  gpio : Int
  frequency : Int
  duty_cycle : Int
deriving DecidableEq

/-- `PWMInstance.__init__` (lines 164-167): duty cycle initialized to
zero. -/
def PWMInstance.init (gpio frequency : Int) : PWMInstance :=
  { gpio := gpio, frequency := frequency, duty_cycle := 0 }

/-- `ChangeDutyCycle` (lines 172-174): store the duty cycle, issue
`tx_pwm` with the stored frequency and the new duty cycle. -/
def PWMInstance.ChangeDutyCycle (p : PWMInstance) (duty_cycle : Int) :
    PWMInstance × List TxPwmCall :=
  ({ p with duty_cycle := duty_cycle }, [(p.gpio, p.frequency, duty_cycle)])

/-- `start` (lines 169-170): delegates to `ChangeDutyCycle`. -/
def PWMInstance.start (p : PWMInstance) (duty_cycle : Int) :
    PWMInstance × List TxPwmCall :=
  p.ChangeDutyCycle duty_cycle

/-- `ChangeFrequency` (lines 176-178): store the frequency, issue
`tx_pwm` with the new frequency and the stored duty cycle. -/
def PWMInstance.ChangeFrequency (p : PWMInstance) (frequency : Int) :
    PWMInstance × List TxPwmCall :=
  ({ p with frequency := frequency }, [(p.gpio, frequency, p.duty_cycle)])

/-- `stop` (lines 180-181): issue `tx_pwm` with frequency 0 and duty
cycle 0. -/
def PWMInstance.stop (p : PWMInstance) : PWMInstance × List TxPwmCall :=
  (p, [(p.gpio, 0, 0)])

/-- `PWM` (lines 158-160): translate the pin, build the instance. -/
def PWM (mode_board : Bool) (gpio frequency : Int) : PWMInstance :=
  PWMInstance.init (_get_gpio mode_board gpio) frequency

/-- C6: a PWM channel starts with duty cycle zero, and `start d`
followed by `stop` issues exactly the two `tx_pwm` requests
(line, freq, d) and then (line, 0, 0). -/
theorem c6_pwm (line freq d : Int) :
    (PWMInstance.init line freq).duty_cycle = 0 ∧
    ((PWMInstance.init line freq).start d).2 ++
      (((PWMInstance.init line freq).start d).1.stop).2 =
      [(line, freq, d), (line, 0, 0)] :=
  ⟨rfl, rfl⟩

/-! ## Remaining surface (for completeness of the embedding) -/

/-- `output` (lines 150-155): translate the pin, try `lgpio.gpio_write`
(supplied as an oracle), print the message of any exception.  Result:
the write issued and the messages printed. -/
def output (mode_board : Bool) (gpio_write : Int → Int → Except String Unit)
    (gpio level : Int) : (Int × Int) × List String :=
  match gpio_write (_get_gpio mode_board gpio) level with
  | Except.ok _ => ((_get_gpio mode_board gpio, level), [])
  | Except.error e => ((_get_gpio mode_board gpio, level), [e])
